import Mathlib

/-!
Verification of the Geo-Relevance Selector of the vyapaar backend.

The embedded code comes from `src/index.js` (listing selection:
`getFilteredRandomListings`, `isListingInUserArea`,
`calculateListingLocationScore`, `getRandomListings`, `shuffleArray`,
`calculateDistance`, and the banner-variant `isBannerInUserArea`) and from
`src/utils/upload.js` (bottom-banner selection: `getFilteredBottomBanners`,
`isBannerInUserArea`, `calculateBannerLocationScore`, `calculateDistance`).

Modelling conventions:
* Geocoding collaborators (`getEnhancedLocationData`, `getListingLocationData`,
  `getBannerLocationData`) are network calls; they are abstracted as
  parameters: the requester location is an `Option Location` (`none` for a
  missing pincode or a failed resolution) and per-candidate resolution is a
  function `resolve : candidate → Option Location`.
* `Math.random()` draws are abstracted as a function `r : Nat → Nat`; the
  Fisher-Yates loop at index `i` uses draw `r i % (i + 1)`, covering every
  value `Math.floor(Math.random() * (i + 1))` can take.
* The distance function is a parameter `dist : Coords → Coords → ℚ` in all
  code that merely calls it; the haversine formula itself is embedded over
  the reals further below for the distance-calculator claims.
* JS string truthiness (null/undefined/"" are falsy) is modelled on
  `Option String`; candidate objects decorated by spreads
  (`{...listing, locationScore}`) are modelled as pairs, and the final
  output is projected back to the plain candidate.
-/

/-- A latitude/longitude pair, numeric coordinates modelled as rationals. -/
structure Coords where
  lat : ℚ
  lng : ℚ
  deriving DecidableEq, Repr

/-- The location record produced by the coordinate resolver
(`getEnhancedLocationData` / `getLocationDataFromCoordinates`):
optional coordinates plus administrative metadata.  Fields that the
selection logic never reads (postal code, formatted address) are omitted. -/
structure Location where
  coordinates : Option Coords
  district : Option String
  subDistrict : Option String
  city : Option String
  state : Option String
  deriving DecidableEq, Repr

/-- JS truthiness of an optional string: `null`/`undefined` and `""` are falsy. -/
def strTruthy : Option String → Bool
  | none => false
  | some s => !(s == "")

/-- `a.toLowerCase() === b.toLowerCase()` on strings, computed on the
underlying character lists. -/
def lowerEq (a b : String) : Bool := a.data.map Char.toLower == b.data.map Char.toLower

/-- The guarded case-insensitive comparison the JS code performs on two
optional fields: both must be truthy and their lowercasings equal. -/
def truthyLowerEq (a b : Option String) : Bool :=
  match a, b with
  | some x, some y => !(x == "") && !(y == "") && lowerEq x y
  | _, _ => false

/-- A listing candidate: identity plus the raw location-hint fields and the
optional service radius consulted by the scorer.  `serviceRadius` is a JS
number-or-null, so `0` is falsy. -/
structure Listing where
  id : Nat
  locationUrl : Option String
  pincode : Option String
  city : Option String
  serviceRadius : Option ℚ
  deriving DecidableEq, Repr

/-- A banner `pincode` column holds either a number or a string in JS. -/
inductive PinVal where
  | num (n : Int)
  | str (s : String)
  deriving DecidableEq, Repr

/-- JS truthiness of the `pincode` field: null, `0` and `""` are falsy. -/
def pinTruthy : Option PinVal → Bool
  | none => false
  | some (.num n) => !(n == 0)
  | some (.str s) => !(s == "")

/-- The global-sentinel test `banner.pincode === 0 || banner.pincode === "000000"`. -/
def isGlobalPin : Option PinVal → Bool
  | none => false
  | some (.num n) => n == 0
  | some (.str s) => s == "000000"

/-- A bottom-banner candidate: identity plus its two raw location hints. -/
structure Banner where
  id : Nat
  locationUrl : Option String
  pincode : Option PinVal
  deriving DecidableEq, Repr

/-- `Math.round` (round half toward positive infinity) on a rational score. -/
def jsRound (q : ℚ) : ℤ := ⌊q + 1 / 2⌋

/-- One swap of the Fisher-Yates loop: exchange positions `i` and `j`
when both are in bounds (they always are in the JS loop). -/
def listSwap (l : List α) (i j : Nat) : List α :=
  match l.get? i, l.get? j with
  | some x, some y => (l.set i y).set j x
  | _, _ => l

/-- The Fisher-Yates loop of `shuffleArray` / `getRandomListings`, counting
the loop index down from `n` to `1`; the draw at index `i` is `r i % (i+1)`,
the range of `Math.floor(Math.random() * (i + 1))`. -/
def fyLoop (r : Nat → Nat) : List α → Nat → List α
  | l, 0 => l
  | l, i + 1 => fyLoop r (listSwap l (i + 1) (r (i + 1) % (i + 2))) i

/-- `shuffleArray` from the source: Fisher-Yates over a copy of the array. -/
def shuffleArray (r : Nat → Nat) (l : List α) : List α :=
  fyLoop r l (l.length - 1)

/-- `getRandomListings` from `src/index.js`: return a copy when the pool
already fits, otherwise shuffle and truncate. -/
def getRandomListings (r : Nat → Nat) (l : List α) (count : Nat) : List α :=
  if l.length ≤ count then l else (shuffleArray r l).take count

/-- Insert one element into a sorted list, keeping it before the first
element it is allowed to precede. -/
def insertBy (le : α → α → Bool) (x : α) : List α → List α
  | [] => [x]
  | y :: ys => if le x y then x :: y :: ys else y :: insertBy le x ys

/-- The stable comparison sort `Array.prototype.sort` performs, modelled as
insertion sort over the boolean comparator. -/
def sortBy (le : α → α → Bool) : List α → List α
  | [] => []
  | x :: xs => insertBy le x (sortBy le xs)

/-- Comparator `(a, b) => b.locationScore - a.locationScore` (descending). -/
def scoreDescLe (a b : α × ℤ) : Bool := decide (b.2 ≤ a.2)

/-- Comparator `(a, b) => a.distance - b.distance` (ascending). -/
def distAscLe (a b : α × ℚ) : Bool := decide (a.2 ≤ b.2)

namespace IndexJs

/-- `isListingInUserArea` from `src/index.js`: district match, else city
match, else same-state proximity within 55 km. -/
def isListingInUserArea (dist : Coords → Coords → ℚ) (u l : Location) : Bool :=
  if truthyLowerEq u.district l.district then true
  else if truthyLowerEq u.city l.city then true
  else
    match u.coordinates, l.coordinates with
    | some uc, some lc =>
      if truthyLowerEq u.state l.state then decide (dist uc lc ≤ 55) else false
    | _, _ => false

/-- `isBannerInUserArea` from `src/index.js` (hero/promoted-banner variant):
same decision procedure as the listing variant. -/
def isBannerInUserArea (dist : Coords → Coords → ℚ) (u b : Location) : Bool :=
  if truthyLowerEq u.district b.district then true
  else if truthyLowerEq u.city b.city then true
  else
    match u.coordinates, b.coordinates with
    | some uc, some bc =>
      if truthyLowerEq u.state b.state then decide (dist uc bc ≤ 55) else false
    | _, _ => false

/-- `calculateListingLocationScore` from `src/index.js`: base 100, +50 city
match, +30 sub-district match, tiered proximity bonus, +10 service-radius
bonus, rounded.  The `listingLocation` argument is optional exactly as the
JS null-check allows. -/
def calculateListingLocationScore (dist : Coords → Coords → ℚ)
    (u : Location) (lloc : Option Location) (listing : Listing) : ℤ :=
  match lloc with
  | none => 0
  | some loc =>
    let s1 : ℚ := 100
    let s2 : ℚ := s1 + (if truthyLowerEq u.city loc.city then 50 else 0)
    let s3 : ℚ := s2 + (if truthyLowerEq u.subDistrict loc.subDistrict then 30 else 0)
    match u.coordinates, loc.coordinates with
    | some uc, some lc =>
      let d : ℚ := dist uc lc
      let s4 : ℚ := s3 +
        (if d ≤ 5 then 20
         else if d ≤ 10 then 20 * (8 / 10)
         else if d ≤ 20 then 20 * (6 / 10)
         else 0)
      let s5 : ℚ := s4 +
        (match listing.serviceRadius with
         | some radius => if !(radius == 0) && decide (d ≤ radius) then 10 else 0
         | none => 0)
      jsRound s5
    | _, _ => jsRound s3

end IndexJs

namespace UploadJs

/-- `isBannerInUserArea` from `src/utils/upload.js` (bottom-banner variant):
same decision procedure as the two `index.js` classifiers. -/
def isBannerInUserArea (dist : Coords → Coords → ℚ) (u b : Location) : Bool :=
  if truthyLowerEq u.district b.district then true
  else if truthyLowerEq u.city b.city then true
  else
    match u.coordinates, b.coordinates with
    | some uc, some bc =>
      if truthyLowerEq u.state b.state then decide (dist uc bc ≤ 55) else false
    | _, _ => false

/-- `calculateBannerLocationScore` from `src/utils/upload.js`: base 100,
+50 city match, +30 sub-district match, tiered proximity bonus, rounded
(no service-radius bonus for banners). -/
def calculateBannerLocationScore (dist : Coords → Coords → ℚ)
    (u : Location) (bloc : Option Location) : ℤ :=
  match bloc with
  | none => 0
  | some loc =>
    let s1 : ℚ := 100
    let s2 : ℚ := s1 + (if truthyLowerEq u.city loc.city then 50 else 0)
    let s3 : ℚ := s2 + (if truthyLowerEq u.subDistrict loc.subDistrict then 30 else 0)
    match u.coordinates, loc.coordinates with
    | some uc, some lc =>
      let d : ℚ := dist uc lc
      let s4 : ℚ := s3 +
        (if d ≤ 5 then 20
         else if d ≤ 10 then 20 * (8 / 10)
         else if d ≤ 20 then 20 * (6 / 10)
         else 0)
      jsRound s4
    | _, _ => jsRound s3

end UploadJs

namespace IndexJs

/-- The bucket a listing lands in during the categorization loop of
`getFilteredRandomListings` (`src/index.js`): unresolvable listings fall
back, in-area listings are scored, and any other listing goes to the
nearby bucket whenever both coordinate pairs exist, else to fallback. -/
inductive LClass where
  | area (score : ℤ)
  | nearby (d : ℚ)
  | fallback
  deriving DecidableEq, Repr

/-- Per-listing classification performed by the loop body. -/
def classifyListing (dist : Coords → Coords → ℚ) (resolve : Listing → Option Location)
    (u : Location) (l : Listing) : LClass :=
  match resolve l with
  | none => .fallback
  | some loc =>
    if isListingInUserArea dist u loc then
      .area (calculateListingLocationScore dist u (some loc) l)
    else
      match u.coordinates, loc.coordinates with
      | some uc, some lc => .nearby (dist uc lc)
      | _, _ => .fallback

/-- The three accumulating buckets of the categorization loop. -/
structure LPart where
  area : List (Listing × ℤ)
  nearby : List (Listing × ℚ)
  fallback : List Listing
  deriving DecidableEq, Repr

/-- One iteration of the categorization loop. -/
def lstep (dist : Coords → Coords → ℚ) (resolve : Listing → Option Location)
    (u : Location) (p : LPart) (l : Listing) : LPart :=
  match classifyListing dist resolve u l with
  | .area s => ⟨p.area ++ [(l, s)], p.nearby, p.fallback⟩
  | .nearby d => ⟨p.area, p.nearby ++ [(l, d)], p.fallback⟩
  | .fallback => ⟨p.area, p.nearby, p.fallback ++ [l]⟩

/-- The whole categorization loop of `getFilteredRandomListings`. -/
def partitionListings (dist : Coords → Coords → ℚ) (resolve : Listing → Option Location)
    (u : Location) (pool : List Listing) : LPart :=
  pool.foldl (lstep dist resolve u) ⟨[], [], []⟩

def areaProj (dist : Coords → Coords → ℚ) (resolve : Listing → Option Location)
    (u : Location) (l : Listing) : Option (Listing × ℤ) :=
  match classifyListing dist resolve u l with
  | .area s => some (l, s)
  | _ => none

def nearbyProj (dist : Coords → Coords → ℚ) (resolve : Listing → Option Location)
    (u : Location) (l : Listing) : Option (Listing × ℚ) :=
  match classifyListing dist resolve u l with
  | .nearby d => some (l, d)
  | _ => none

def fallbackProj (dist : Coords → Coords → ℚ) (resolve : Listing → Option Location)
    (u : Location) (l : Listing) : Option Listing :=
  match classifyListing dist resolve u l with
  | .fallback => some l
  | _ => none


/-- `getFilteredRandomListings` from `src/index.js`.  The geocoding of the
requester pincode is abstracted as `userLoc : Option Location` (`none`
covers both a missing pincode and a failed resolution); `resolve` abstracts
`getListingLocationData`; `r1` and `r2` feed the two shuffles.  Decorated
objects (`{...listing, locationScore}`) are projected back to the listing. -/
def getFilteredRandomListings (dist : Coords → Coords → ℚ)
    (resolve : Listing → Option Location) (r1 r2 : Nat → Nat)
    (userLoc : Option Location) (pool : List Listing) (maxResults : Nat) : List Listing :=
  match userLoc with
  | none => getRandomListings r1 pool maxResults
  | some u =>
    let P := partitionListings dist resolve u pool
    let selected : List Listing :=
      if 0 < P.area.length then
        (getRandomListings r1 (sortBy scoreDescLe P.area) maxResults).map Prod.fst
      else if 0 < P.nearby.length then
        (getRandomListings r1 ((sortBy distAscLe P.nearby).take (maxResults * 2))
          maxResults).map Prod.fst
      else
        getRandomListings r1 P.fallback maxResults
    (shuffleArray r2 selected).take maxResults

end IndexJs

namespace UploadJs

/-- The bucket a banner lands in during the categorization loop of
`getFilteredBottomBanners` (`src/utils/upload.js`).  `skip` records a banner
the loop drops entirely. -/
inductive BClass where
  | globalB
  | area (score : ℤ)
  | nearby (d : ℚ)
  | fallback
  | skip
  deriving DecidableEq, Repr

/-- `!banner.locationUrl && !banner.pincode`: the banner carries no
restrictive location hint. -/
def noRestriction (b : Banner) : Bool :=
  !(strTruthy b.locationUrl) && !(pinTruthy b.pincode)

/-- Per-banner classification performed by the loop body: global sentinels
first, then unresolvable banners (fallback only when unrestricted), then
in-area, then same-state 55 km proximity, else fallback-if-unrestricted. -/
def classifyBanner (dist : Coords → Coords → ℚ) (resolve : Banner → Option Location)
    (u : Location) (b : Banner) : BClass :=
  if isGlobalPin b.pincode then .globalB
  else
    match resolve b with
    | none => if noRestriction b then .fallback else .skip
    | some loc =>
      if isBannerInUserArea dist u loc then
        .area (calculateBannerLocationScore dist u (some loc))
      else
        match u.coordinates, loc.coordinates with
        | some uc, some lc =>
          if truthyLowerEq u.state loc.state then
            if dist uc lc ≤ 55 then .nearby (dist uc lc) else .skip
          else if noRestriction b then .fallback else .skip
        | _, _ => if noRestriction b then .fallback else .skip

/-- The four accumulating buckets of the bottom-banner categorization loop. -/
structure BPart where
  globalB : List Banner
  area : List (Banner × ℤ)
  nearby : List (Banner × ℚ)
  fallback : List Banner
  deriving DecidableEq, Repr

/-- One iteration of the bottom-banner categorization loop. -/
def bstep (dist : Coords → Coords → ℚ) (resolve : Banner → Option Location)
    (u : Location) (p : BPart) (b : Banner) : BPart :=
  match classifyBanner dist resolve u b with
  | .globalB => ⟨p.globalB ++ [b], p.area, p.nearby, p.fallback⟩
  | .area s => ⟨p.globalB, p.area ++ [(b, s)], p.nearby, p.fallback⟩
  | .nearby d => ⟨p.globalB, p.area, p.nearby ++ [(b, d)], p.fallback⟩
  | .fallback => ⟨p.globalB, p.area, p.nearby, p.fallback ++ [b]⟩
  | .skip => p

/-- The whole categorization loop of `getFilteredBottomBanners`. -/
def partitionBanners (dist : Coords → Coords → ℚ) (resolve : Banner → Option Location)
    (u : Location) (pool : List Banner) : BPart :=
  pool.foldl (bstep dist resolve u) ⟨[], [], [], []⟩

def globalProj (dist : Coords → Coords → ℚ) (resolve : Banner → Option Location)
    (u : Location) (b : Banner) : Option Banner :=
  match classifyBanner dist resolve u b with
  | .globalB => some b
  | _ => none

def areaProjB (dist : Coords → Coords → ℚ) (resolve : Banner → Option Location)
    (u : Location) (b : Banner) : Option (Banner × ℤ) :=
  match classifyBanner dist resolve u b with
  | .area s => some (b, s)
  | _ => none

def nearbyProjB (dist : Coords → Coords → ℚ) (resolve : Banner → Option Location)
    (u : Location) (b : Banner) : Option (Banner × ℚ) :=
  match classifyBanner dist resolve u b with
  | .nearby d => some (b, d)
  | _ => none

def fallbackProjB (dist : Coords → Coords → ℚ) (resolve : Banner → Option Location)
    (u : Location) (b : Banner) : Option Banner :=
  match classifyBanner dist resolve u b with
  | .fallback => some b
  | _ => none


/-- `getFilteredBottomBanners` from `src/utils/upload.js`: global sentinels
are taken first, one tier tops up the remaining slots, the non-global part
is shuffled, and the result is truncated to `maxResults`.  Geocoding and
randomness are abstracted as in the listing cascade. -/
def getFilteredBottomBanners (dist : Coords → Coords → ℚ)
    (resolve : Banner → Option Location) (r1 r2 : Nat → Nat)
    (userLoc : Option Location) (pool : List Banner) (maxResults : Nat) : List Banner :=
  match userLoc with
  | none => (shuffleArray r1 pool).take maxResults
  | some u =>
    let P := partitionBanners dist resolve u pool
    let selected : List Banner :=
      if P.globalB.length < maxResults then
        let rem := maxResults - P.globalB.length
        if 0 < P.area.length then
          P.globalB ++ ((sortBy scoreDescLe P.area).take rem).map Prod.fst
        else if 0 < P.nearby.length then
          P.globalB ++ ((sortBy distAscLe P.nearby).take rem).map Prod.fst
        else
          P.globalB ++ P.fallback.take rem
      else P.globalB
    let g := P.globalB.length
    (selected.take g ++ shuffleArray r2 (selected.drop g)).take maxResults

end UploadJs

/-- `Math.atan2` over the reals: the angle of the point `(x, y)`. -/
noncomputable def atan2 (y x : ℝ) : ℝ :=
  if 0 < x then Real.arctan (y / x)
  else if x < 0 then
    (if 0 ≤ y then Real.arctan (y / x) + Real.pi else Real.arctan (y / x) - Real.pi)
  else if 0 < y then Real.pi / 2
  else if y < 0 then -(Real.pi / 2)
  else 0

namespace IndexJs

/-- `deg2rad` from `src/index.js`. -/
noncomputable def deg2rad (deg : ℝ) : ℝ := deg * (Real.pi / 180)

/-- `calculateDistance` from `src/index.js`: the haversine great-circle
formula with Earth radius 6371 km, over ideal real numbers. -/
noncomputable def calculateDistance (lat1 lon1 lat2 lon2 : ℝ) : ℝ :=
  let dLat := deg2rad (lat2 - lat1)
  let dLon := deg2rad (lon2 - lon1)
  let a := Real.sin (dLat / 2) * Real.sin (dLat / 2) +
    Real.cos (deg2rad lat1) * Real.cos (deg2rad lat2) *
      Real.sin (dLon / 2) * Real.sin (dLon / 2)
  let c := 2 * atan2 (Real.sqrt a) (Real.sqrt (1 - a))
  6371 * c

end IndexJs

namespace UploadJs

/-- `calculateDistance` from `src/utils/upload.js`: the same haversine
formula with the degree-to-radian conversion written inline. -/
noncomputable def calculateDistance (lat1 lng1 lat2 lng2 : ℝ) : ℝ :=
  let dLat := (lat2 - lat1) * Real.pi / 180
  let dLng := (lng2 - lng1) * Real.pi / 180
  let a := Real.sin (dLat / 2) * Real.sin (dLat / 2) +
    Real.cos (lat1 * Real.pi / 180) * Real.cos (lat2 * Real.pi / 180) *
      Real.sin (dLng / 2) * Real.sin (dLng / 2)
  let c := 2 * atan2 (Real.sqrt a) (Real.sqrt (1 - a))
  6371 * c

end UploadJs

/-- Spec wording of a field match: both sides present (non-empty) and equal
case-insensitively.  Spec-side definition, used to state claim C5. -/
def presentEq (a b : Option String) : Prop :=
  ∃ x y, a = some x ∧ b = some y ∧ x ≠ "" ∧ y ≠ "" ∧ lowerEq x y = true

/-- The Area-Classifier contract exactly as the specification words it:
district equality, or else city equality, or else same-state proximity
within 55 km; false when nothing can be evaluated.  Spec-side definition,
compared against the code's classifiers in claim C5. -/
def sameAreaSpec (dist : Coords → Coords → ℚ) (u l : Location) : Prop :=
  presentEq u.district l.district
  ∨ presentEq u.city l.city
  ∨ (presentEq u.state l.state
      ∧ ∃ uc lc, u.coordinates = some uc ∧ l.coordinates = some lc ∧ dist uc lc ≤ 55)

/-- Spec-side tiered proximity bonus of the Relevance Scorer: 20 within
5 km, 16 within 10 km, 12 within 20 km, 0 otherwise, and only when both
coordinate pairs are present. -/
def proximityBonusSpec (dist : Coords → Coords → ℚ) (u loc : Location) : ℚ :=
  match u.coordinates, loc.coordinates with
  | some uc, some lc =>
    if dist uc lc ≤ 5 then 20
    else if dist uc lc ≤ 10 then 16
    else if dist uc lc ≤ 20 then 12
    else 0
  | _, _ => 0

/-- Spec-side service-radius bonus indicator: the candidate declares a
service radius (JS truthiness: present and non-zero) and the computed
distance is within it; the distance exists only when both coordinate
pairs are present. -/
def serviceBonusSpec (dist : Coords → Coords → ℚ) (u loc : Location)
    (listing : Listing) : ℚ :=
  match u.coordinates, loc.coordinates, listing.serviceRadius with
  | some uc, some lc, some radius => if radius ≠ 0 ∧ dist uc lc ≤ radius then 10 else 0
  | _, _, _ => 0

namespace Ex

/-- A distance function that is identically zero (two data points carrying
the same coordinates realize it). -/
def dist0 : Coords → Coords → ℚ := fun _ _ => 0

/-- A fixed random source (every draw lands on index 0). -/
def rand0 : Nat → Nat := fun _ => 0

def uPune : Location :=
  ⟨some ⟨10, 20⟩, some "Pune", some "Haveli", some "Pune", some "Maharashtra"⟩

def locPune : Location := ⟨some ⟨10, 20⟩, some "Pune", none, none, some "Maharashtra"⟩

def locKerala : Location := ⟨some ⟨10, 20⟩, some "Kochi", none, none, some "Kerala"⟩

def l1 : Listing := ⟨1, none, some "411001", none, none⟩

def l2 : Listing := ⟨2, none, some "411002", none, none⟩

def lRestricted : Listing := ⟨7, none, some "560001", none, none⟩

def resolvePuneFirst : Listing → Option Location :=
  fun l => if l.id == 1 then some locPune else none

def resolveKerala : Listing → Option Location := fun _ => some locKerala

def resolveNone : Listing → Option Location := fun _ => none

def gBanner1 : Banner := ⟨1, none, some (.str "000000")⟩

def gBanner2 : Banner := ⟨2, none, some (.num 0)⟩

def aBanner : Banner := ⟨3, none, some (.str "411001")⟩

def rBanner : Banner := ⟨4, some "https://maps.app.goo.gl/abc", none⟩

def resolveBanner : Banner → Option Location :=
  fun b => if b.id == 3 then some locPune else none

def resolveBNone : Banner → Option Location := fun _ => none

end Ex

theorem set_get?_self : ∀ (l : List α) (i : Nat) (x : α),
    l.get? i = some x → l.set i x = l := by
  intro l
  induction l with
  | nil => intro i x h; cases h
  | cons a t ih =>
    intro i x h
    cases i with
    | zero => simp only [List.get?] at h; cases h; rfl
    | succ m => simp only [List.get?] at h; simp [List.set, ih m x h]

theorem cons_set_perm : ∀ (t : List α) (k : Nat) (y a : α),
    t.get? k = some y → (y :: t.set k a).Perm (a :: t) := by
  intro t
  induction t with
  | nil => intro k y a h; cases h
  | cons b s ih =>
    intro k y a h
    cases k with
    | zero =>
      simp only [List.get?] at h
      cases h
      simpa using List.Perm.swap a b s
    | succ m =>
      simp only [List.get?] at h
      have step₁ : (y :: b :: s.set m a).Perm (b :: y :: s.set m a) :=
        List.Perm.swap b y (s.set m a)
      have step₂ : (b :: y :: s.set m a).Perm (b :: a :: s) :=
        List.Perm.cons b (ih m y a h)
      have step₃ : (b :: a :: s).Perm (a :: b :: s) := List.Perm.swap a b s
      exact (step₁.trans step₂).trans step₃

theorem set_set_swap_perm : ∀ (l : List α) (i j : Nat) (x y : α),
    l.get? i = some x → l.get? j = some y → ((l.set i y).set j x).Perm l := by
  intro l
  induction l with
  | nil => intro i j x y h; cases h
  | cons a t ih =>
    intro i j x y hi hj
    cases i with
    | zero =>
      simp only [List.get?] at hi
      cases hi
      cases j with
      | zero =>
        simp only [List.get?] at hj
        cases hj
        simp
      | succ k =>
        simp only [List.get?] at hj
        simpa using cons_set_perm t k y a hj
    | succ m =>
      simp only [List.get?] at hi
      cases j with
      | zero =>
        simp only [List.get?] at hj
        cases hj
        simpa using cons_set_perm t m x a hi
      | succ k =>
        simp only [List.get?] at hj
        simpa using List.Perm.cons a (ih m k x y hi hj)

theorem listSwap_perm (l : List α) (i j : Nat) : (listSwap l i j).Perm l := by
  unfold listSwap
  cases hi : l.get? i with
  | none => exact List.Perm.refl l
  | some x =>
    cases hj : l.get? j with
    | none => exact List.Perm.refl l
    | some y => exact set_set_swap_perm l i j x y hi hj

theorem fyLoop_perm (r : Nat → Nat) : ∀ (n : Nat) (l : List α), (fyLoop r l n).Perm l := by
  intro n
  induction n with
  | zero => intro l; exact List.Perm.refl l
  | succ m ih =>
    intro l
    exact (ih _).trans (listSwap_perm l (m + 1) (r (m + 1) % (m + 2)))

theorem shuffleArray_perm (r : Nat → Nat) (l : List α) : (shuffleArray r l).Perm l :=
  fyLoop_perm r (l.length - 1) l

theorem shuffleArray_length (r : Nat → Nat) (l : List α) :
    (shuffleArray r l).length = l.length :=
  (shuffleArray_perm r l).length_eq

theorem mem_of_mem_shuffleArray {r : Nat → Nat} {l : List α} {x : α}
    (h : x ∈ shuffleArray r l) : x ∈ l :=
  (shuffleArray_perm r l).mem_iff.mp h

theorem getRandomListings_length (r : Nat → Nat) (l : List α) (count : Nat) :
    (getRandomListings r l count).length = min count l.length := by
  unfold getRandomListings
  by_cases h : l.length ≤ count
  · simp [h, Nat.min_eq_right h]
  · have hlt : count ≤ l.length := Nat.le_of_lt (Nat.lt_of_not_le h)
    simp [h, shuffleArray_length, Nat.min_eq_left hlt]

theorem mem_of_mem_getRandomListings {r : Nat → Nat} {l : List α} {count : Nat} {x : α}
    (h : x ∈ getRandomListings r l count) : x ∈ l := by
  unfold getRandomListings at h
  by_cases hc : l.length ≤ count
  · simpa [hc] using h
  · simp only [hc, if_false] at h
    exact mem_of_mem_shuffleArray (List.mem_of_mem_take h)

theorem getRandomListings_eq_perm_take (r : Nat → Nat) (l : List α) (count : Nat) :
    ∃ p : List α, p.Perm l ∧ getRandomListings r l count = p.take count := by
  unfold getRandomListings
  by_cases h : l.length ≤ count
  · exact ⟨l, List.Perm.refl l, by simp [h, List.take_of_length_le h]⟩
  · exact ⟨shuffleArray r l, shuffleArray_perm r l, by simp [h]⟩

theorem insertBy_perm (le : α → α → Bool) (x : α) :
    ∀ l : List α, (insertBy le x l).Perm (x :: l) := by
  intro l
  induction l with
  | nil => exact List.Perm.refl [x]
  | cons y ys ih =>
    unfold insertBy
    by_cases h : le x y
    · simp [h]
    · simp only [h, if_false]
      exact (List.Perm.cons y ih).trans (List.Perm.swap x y ys)

theorem sortBy_perm (le : α → α → Bool) : ∀ l : List α, (sortBy le l).Perm l := by
  intro l
  induction l with
  | nil => exact List.Perm.refl []
  | cons x xs ih =>
    exact (insertBy_perm le x (sortBy le xs)).trans (List.Perm.cons x ih)

theorem sortBy_length (le : α → α → Bool) (l : List α) :
    (sortBy le l).length = l.length :=
  (sortBy_perm le l).length_eq

theorem mem_of_mem_sortBy {le : α → α → Bool} {l : List α} {x : α}
    (h : x ∈ sortBy le l) : x ∈ l :=
  (sortBy_perm le l).mem_iff.mp h


theorem mem_map_fst_take_sortBy {le : (α × β) → (α × β) → Bool} {l : List (α × β)}
    {n : Nat} {x : α} (h : x ∈ ((sortBy le l).take n).map Prod.fst) :
    x ∈ l.map Prod.fst := by
  rcases List.mem_map.mp h with ⟨pr, hpr, hfst⟩
  exact List.mem_map.mpr ⟨pr, mem_of_mem_sortBy (List.mem_of_mem_take hpr), hfst⟩

theorem mem_map_fst_getRandom_sortBy {le : (α × β) → (α × β) → Bool} {r : Nat → Nat}
    {l : List (α × β)} {c : Nat} {x : α}
    (h : x ∈ (getRandomListings r (sortBy le l) c).map Prod.fst) :
    x ∈ l.map Prod.fst := by
  rcases List.mem_map.mp h with ⟨pr, hpr, hfst⟩
  exact List.mem_map.mpr ⟨pr, mem_of_mem_sortBy (mem_of_mem_getRandomListings hpr), hfst⟩

namespace IndexJs

theorem foldl_lstep_eq (dist : Coords → Coords → ℚ) (resolve : Listing → Option Location)
    (u : Location) : ∀ (pool : List Listing) (p : LPart),
    pool.foldl (lstep dist resolve u) p =
      ⟨p.area ++ pool.filterMap (areaProj dist resolve u),
       p.nearby ++ pool.filterMap (nearbyProj dist resolve u),
       p.fallback ++ pool.filterMap (fallbackProj dist resolve u)⟩ := by
  intro pool
  induction pool with
  | nil => intro p; simp
  | cons l rest ih =>
    intro p
    rw [List.foldl_cons, ih]
    cases hc : classifyListing dist resolve u l with
    | area s =>
      simp [lstep, areaProj, nearbyProj, fallbackProj, hc, List.filterMap_cons]
    | nearby d =>
      simp [lstep, areaProj, nearbyProj, fallbackProj, hc, List.filterMap_cons]
    | fallback =>
      simp [lstep, areaProj, nearbyProj, fallbackProj, hc, List.filterMap_cons]

theorem partitionListings_eq (dist : Coords → Coords → ℚ) (resolve : Listing → Option Location)
    (u : Location) (pool : List Listing) :
    partitionListings dist resolve u pool =
      ⟨pool.filterMap (areaProj dist resolve u),
       pool.filterMap (nearbyProj dist resolve u),
       pool.filterMap (fallbackProj dist resolve u)⟩ := by
  have h := foldl_lstep_eq dist resolve u pool ⟨[], [], []⟩
  simpa [partitionListings] using h


theorem mem_area_pair_iff (dist : Coords → Coords → ℚ) (resolve : Listing → Option Location)
    (u : Location) (pool : List Listing) (l : Listing) (s : ℤ) :
    (l, s) ∈ (partitionListings dist resolve u pool).area ↔
      l ∈ pool ∧ classifyListing dist resolve u l = .area s := by
  rw [partitionListings_eq]
  simp only [List.mem_filterMap]
  constructor
  · rintro ⟨x, hx, hproj⟩
    unfold areaProj at hproj
    cases hc : classifyListing dist resolve u x with
    | area t => rw [hc] at hproj; cases hproj; exact ⟨hx, hc⟩
    | nearby d => rw [hc] at hproj; cases hproj
    | fallback => rw [hc] at hproj; cases hproj
  · rintro ⟨hl, hc⟩
    exact ⟨l, hl, by unfold areaProj; rw [hc]⟩

theorem mem_nearby_pair_iff (dist : Coords → Coords → ℚ) (resolve : Listing → Option Location)
    (u : Location) (pool : List Listing) (l : Listing) (d : ℚ) :
    (l, d) ∈ (partitionListings dist resolve u pool).nearby ↔
      l ∈ pool ∧ classifyListing dist resolve u l = .nearby d := by
  rw [partitionListings_eq]
  simp only [List.mem_filterMap]
  constructor
  · rintro ⟨x, hx, hproj⟩
    unfold nearbyProj at hproj
    cases hc : classifyListing dist resolve u x with
    | area t => rw [hc] at hproj; cases hproj
    | nearby e => rw [hc] at hproj; cases hproj; exact ⟨hx, hc⟩
    | fallback => rw [hc] at hproj; cases hproj
  · rintro ⟨hl, hc⟩
    exact ⟨l, hl, by unfold nearbyProj; rw [hc]⟩

theorem mem_fallback_iff (dist : Coords → Coords → ℚ) (resolve : Listing → Option Location)
    (u : Location) (pool : List Listing) (l : Listing) :
    l ∈ (partitionListings dist resolve u pool).fallback ↔
      l ∈ pool ∧ classifyListing dist resolve u l = .fallback := by
  rw [partitionListings_eq]
  simp only [List.mem_filterMap]
  constructor
  · rintro ⟨x, hx, hproj⟩
    unfold fallbackProj at hproj
    cases hc : classifyListing dist resolve u x with
    | area t => rw [hc] at hproj; cases hproj
    | nearby e => rw [hc] at hproj; cases hproj
    | fallback => rw [hc] at hproj; cases hproj; exact ⟨hx, hc⟩
  · rintro ⟨hl, hc⟩
    exact ⟨l, hl, by unfold fallbackProj; rw [hc]⟩

theorem mem_area_fst_iff (dist : Coords → Coords → ℚ) (resolve : Listing → Option Location)
    (u : Location) (pool : List Listing) (l : Listing) :
    l ∈ (partitionListings dist resolve u pool).area.map Prod.fst ↔
      l ∈ pool ∧ ∃ s, classifyListing dist resolve u l = .area s := by
  constructor
  · intro h
    rcases List.mem_map.mp h with ⟨⟨x, s⟩, hx, rfl⟩
    rcases (mem_area_pair_iff dist resolve u pool x s).mp hx with ⟨hp, hc⟩
    exact ⟨hp, s, hc⟩
  · rintro ⟨hp, s, hc⟩
    exact List.mem_map.mpr ⟨(l, s), (mem_area_pair_iff dist resolve u pool l s).mpr ⟨hp, hc⟩, rfl⟩

theorem mem_nearby_fst_iff (dist : Coords → Coords → ℚ) (resolve : Listing → Option Location)
    (u : Location) (pool : List Listing) (l : Listing) :
    l ∈ (partitionListings dist resolve u pool).nearby.map Prod.fst ↔
      l ∈ pool ∧ ∃ d, classifyListing dist resolve u l = .nearby d := by
  constructor
  · intro h
    rcases List.mem_map.mp h with ⟨⟨x, d⟩, hx, rfl⟩
    rcases (mem_nearby_pair_iff dist resolve u pool x d).mp hx with ⟨hp, hc⟩
    exact ⟨hp, d, hc⟩
  · rintro ⟨hp, d, hc⟩
    exact List.mem_map.mpr ⟨(l, d), (mem_nearby_pair_iff dist resolve u pool l d).mpr ⟨hp, hc⟩, rfl⟩

/-- Length of the listing-cascade output, one tier at a time. -/
theorem getFilteredRandomListings_length (dist : Coords → Coords → ℚ)
    (resolve : Listing → Option Location) (r1 r2 : Nat → Nat)
    (u : Location) (pool : List Listing) (maxResults : Nat) :
    (getFilteredRandomListings dist resolve r1 r2 (some u) pool maxResults).length =
      (if 0 < (partitionListings dist resolve u pool).area.length then
        min maxResults (partitionListings dist resolve u pool).area.length
       else if 0 < (partitionListings dist resolve u pool).nearby.length then
        min maxResults (partitionListings dist resolve u pool).nearby.length
       else min maxResults (partitionListings dist resolve u pool).fallback.length) := by
  unfold getFilteredRandomListings
  by_cases ha : 0 < (partitionListings dist resolve u pool).area.length
  · simp only [ha, if_true, List.length_take, shuffleArray_length, List.length_map,
      getRandomListings_length, sortBy_length]
    omega
  · by_cases hn : 0 < (partitionListings dist resolve u pool).nearby.length
    · simp only [ha, hn, if_true, if_false, List.length_take, shuffleArray_length,
        List.length_map, getRandomListings_length, sortBy_length]
      omega
    · simp only [ha, hn, if_false, List.length_take, shuffleArray_length,
        getRandomListings_length]
      omega

end IndexJs

namespace UploadJs

theorem foldl_bstep_eq (dist : Coords → Coords → ℚ) (resolve : Banner → Option Location)
    (u : Location) : ∀ (pool : List Banner) (p : BPart),
    pool.foldl (bstep dist resolve u) p =
      ⟨p.globalB ++ pool.filterMap (globalProj dist resolve u),
       p.area ++ pool.filterMap (areaProjB dist resolve u),
       p.nearby ++ pool.filterMap (nearbyProjB dist resolve u),
       p.fallback ++ pool.filterMap (fallbackProjB dist resolve u)⟩ := by
  intro pool
  induction pool with
  | nil => intro p; simp
  | cons b rest ih =>
    intro p
    rw [List.foldl_cons, ih]
    cases hc : classifyBanner dist resolve u b with
    | globalB =>
      simp [bstep, globalProj, areaProjB, nearbyProjB, fallbackProjB, hc, List.filterMap_cons]
    | area s =>
      simp [bstep, globalProj, areaProjB, nearbyProjB, fallbackProjB, hc, List.filterMap_cons]
    | nearby d =>
      simp [bstep, globalProj, areaProjB, nearbyProjB, fallbackProjB, hc, List.filterMap_cons]
    | fallback =>
      simp [bstep, globalProj, areaProjB, nearbyProjB, fallbackProjB, hc, List.filterMap_cons]
    | skip =>
      simp [bstep, globalProj, areaProjB, nearbyProjB, fallbackProjB, hc, List.filterMap_cons]

theorem partitionBanners_eq (dist : Coords → Coords → ℚ) (resolve : Banner → Option Location)
    (u : Location) (pool : List Banner) :
    partitionBanners dist resolve u pool =
      ⟨pool.filterMap (globalProj dist resolve u),
       pool.filterMap (areaProjB dist resolve u),
       pool.filterMap (nearbyProjB dist resolve u),
       pool.filterMap (fallbackProjB dist resolve u)⟩ := by
  have h := foldl_bstep_eq dist resolve u pool ⟨[], [], [], []⟩
  simpa [partitionBanners] using h


theorem mem_globalB_iff (dist : Coords → Coords → ℚ) (resolve : Banner → Option Location)
    (u : Location) (pool : List Banner) (b : Banner) :
    b ∈ (partitionBanners dist resolve u pool).globalB ↔
      b ∈ pool ∧ classifyBanner dist resolve u b = .globalB := by
  rw [partitionBanners_eq]
  simp only [List.mem_filterMap]
  constructor
  · rintro ⟨x, hx, hproj⟩
    unfold globalProj at hproj
    cases hc : classifyBanner dist resolve u x <;> rw [hc] at hproj <;> cases hproj
    exact ⟨hx, hc⟩
  · rintro ⟨hb, hc⟩
    exact ⟨b, hb, by unfold globalProj; rw [hc]⟩

theorem mem_area_pair_iffB (dist : Coords → Coords → ℚ) (resolve : Banner → Option Location)
    (u : Location) (pool : List Banner) (b : Banner) (s : ℤ) :
    (b, s) ∈ (partitionBanners dist resolve u pool).area ↔
      b ∈ pool ∧ classifyBanner dist resolve u b = .area s := by
  rw [partitionBanners_eq]
  simp only [List.mem_filterMap]
  constructor
  · rintro ⟨x, hx, hproj⟩
    unfold areaProjB at hproj
    cases hc : classifyBanner dist resolve u x <;> rw [hc] at hproj <;> cases hproj
    exact ⟨hx, hc⟩
  · rintro ⟨hb, hc⟩
    exact ⟨b, hb, by unfold areaProjB; rw [hc]⟩

theorem mem_nearby_pair_iffB (dist : Coords → Coords → ℚ) (resolve : Banner → Option Location)
    (u : Location) (pool : List Banner) (b : Banner) (d : ℚ) :
    (b, d) ∈ (partitionBanners dist resolve u pool).nearby ↔
      b ∈ pool ∧ classifyBanner dist resolve u b = .nearby d := by
  rw [partitionBanners_eq]
  simp only [List.mem_filterMap]
  constructor
  · rintro ⟨x, hx, hproj⟩
    unfold nearbyProjB at hproj
    cases hc : classifyBanner dist resolve u x <;> rw [hc] at hproj <;> cases hproj
    exact ⟨hx, hc⟩
  · rintro ⟨hb, hc⟩
    exact ⟨b, hb, by unfold nearbyProjB; rw [hc]⟩

theorem mem_fallback_iffB (dist : Coords → Coords → ℚ) (resolve : Banner → Option Location)
    (u : Location) (pool : List Banner) (b : Banner) :
    b ∈ (partitionBanners dist resolve u pool).fallback ↔
      b ∈ pool ∧ classifyBanner dist resolve u b = .fallback := by
  rw [partitionBanners_eq]
  simp only [List.mem_filterMap]
  constructor
  · rintro ⟨x, hx, hproj⟩
    unfold fallbackProjB at hproj
    cases hc : classifyBanner dist resolve u x <;> rw [hc] at hproj <;> cases hproj
    exact ⟨hx, hc⟩
  · rintro ⟨hb, hc⟩
    exact ⟨b, hb, by unfold fallbackProjB; rw [hc]⟩

theorem mem_area_fst_iffB (dist : Coords → Coords → ℚ) (resolve : Banner → Option Location)
    (u : Location) (pool : List Banner) (b : Banner) :
    b ∈ (partitionBanners dist resolve u pool).area.map Prod.fst ↔
      b ∈ pool ∧ ∃ s, classifyBanner dist resolve u b = .area s := by
  constructor
  · intro h
    rcases List.mem_map.mp h with ⟨⟨x, s⟩, hx, rfl⟩
    rcases (mem_area_pair_iffB dist resolve u pool x s).mp hx with ⟨hp, hc⟩
    exact ⟨hp, s, hc⟩
  · rintro ⟨hp, s, hc⟩
    exact List.mem_map.mpr ⟨(b, s), (mem_area_pair_iffB dist resolve u pool b s).mpr ⟨hp, hc⟩, rfl⟩

theorem mem_nearby_fst_iffB (dist : Coords → Coords → ℚ) (resolve : Banner → Option Location)
    (u : Location) (pool : List Banner) (b : Banner) :
    b ∈ (partitionBanners dist resolve u pool).nearby.map Prod.fst ↔
      b ∈ pool ∧ ∃ d, classifyBanner dist resolve u b = .nearby d := by
  constructor
  · intro h
    rcases List.mem_map.mp h with ⟨⟨x, d⟩, hx, rfl⟩
    rcases (mem_nearby_pair_iffB dist resolve u pool x d).mp hx with ⟨hp, hc⟩
    exact ⟨hp, d, hc⟩
  · rintro ⟨hp, d, hc⟩
    exact List.mem_map.mpr ⟨(b, d), (mem_nearby_pair_iffB dist resolve u pool b d).mpr ⟨hp, hc⟩, rfl⟩

/-- Structure of the bottom-banner output: the global bucket, followed by a
shuffled tail drawn from exactly one of the other tiers, truncated. -/
theorem bottomBanners_decompose (dist : Coords → Coords → ℚ)
    (resolve : Banner → Option Location) (r1 r2 : Nat → Nat)
    (u : Location) (pool : List Banner) (maxResults : Nat) :
    ∃ T : List Banner,
      getFilteredBottomBanners dist resolve r1 r2 (some u) pool maxResults =
        ((partitionBanners dist resolve u pool).globalB ++ shuffleArray r2 T).take maxResults
      ∧ ∀ x ∈ T,
          x ∈ (partitionBanners dist resolve u pool).area.map Prod.fst
          ∨ x ∈ (partitionBanners dist resolve u pool).nearby.map Prod.fst
          ∨ x ∈ (partitionBanners dist resolve u pool).fallback := by
  unfold getFilteredBottomBanners
  by_cases hg : (partitionBanners dist resolve u pool).globalB.length < maxResults
  · by_cases ha : 0 < (partitionBanners dist resolve u pool).area.length
    · refine ⟨((sortBy scoreDescLe (partitionBanners dist resolve u pool).area).take
          (maxResults - (partitionBanners dist resolve u pool).globalB.length)).map Prod.fst,
        ?_, ?_⟩
      · simp only [hg, ha, if_true, ite_true, ite_false, List.take_left, List.drop_left]
      · intro x hx
        exact Or.inl (mem_map_fst_take_sortBy hx)
    · by_cases hn : 0 < (partitionBanners dist resolve u pool).nearby.length
      · refine ⟨((sortBy distAscLe (partitionBanners dist resolve u pool).nearby).take
            (maxResults - (partitionBanners dist resolve u pool).globalB.length)).map Prod.fst,
          ?_, ?_⟩
        · simp only [hg, ha, hn, if_true, if_false, ite_true, ite_false, List.take_left, List.drop_left]
        · intro x hx
          exact Or.inr (Or.inl (mem_map_fst_take_sortBy hx))
      · refine ⟨(partitionBanners dist resolve u pool).fallback.take
            (maxResults - (partitionBanners dist resolve u pool).globalB.length), ?_, ?_⟩
        · simp only [hg, ha, hn, if_true, if_false, ite_true, ite_false, List.take_left, List.drop_left]
        · intro x hx
          exact Or.inr (Or.inr (List.mem_of_mem_take hx))
  · refine ⟨[], ?_, by intro x hx; cases hx⟩
    simp only [hg, if_true, if_false, ite_true, ite_false, List.take_length, List.drop_length]

/-- Every banner in the bottom-banner output comes from one of the four
buckets of the categorization loop. -/
theorem mem_bottom_output (dist : Coords → Coords → ℚ)
    (resolve : Banner → Option Location) (r1 r2 : Nat → Nat)
    (u : Location) (pool : List Banner) (maxResults : Nat) (x : Banner)
    (h : x ∈ getFilteredBottomBanners dist resolve r1 r2 (some u) pool maxResults) :
    x ∈ (partitionBanners dist resolve u pool).globalB
    ∨ x ∈ (partitionBanners dist resolve u pool).area.map Prod.fst
    ∨ x ∈ (partitionBanners dist resolve u pool).nearby.map Prod.fst
    ∨ x ∈ (partitionBanners dist resolve u pool).fallback := by
  rcases bottomBanners_decompose dist resolve r1 r2 u pool maxResults with ⟨T, heq, hT⟩
  rw [heq] at h
  rcases List.mem_append.mp (List.mem_of_mem_take h) with hg | ht
  · exact Or.inl hg
  · exact Or.inr (hT x (mem_of_mem_shuffleArray ht))

/-- Length of the bottom-banner output: global sentinels plus the slots the
chosen tier could fill, truncated to `maxResults`. -/
theorem getFilteredBottomBanners_length (dist : Coords → Coords → ℚ)
    (resolve : Banner → Option Location) (r1 r2 : Nat → Nat)
    (u : Location) (pool : List Banner) (maxResults : Nat) :
    (getFilteredBottomBanners dist resolve r1 r2 (some u) pool maxResults).length =
      min maxResults
        ((partitionBanners dist resolve u pool).globalB.length +
          (if (partitionBanners dist resolve u pool).globalB.length < maxResults then
            (if 0 < (partitionBanners dist resolve u pool).area.length then
              min (maxResults - (partitionBanners dist resolve u pool).globalB.length)
                (partitionBanners dist resolve u pool).area.length
             else if 0 < (partitionBanners dist resolve u pool).nearby.length then
              min (maxResults - (partitionBanners dist resolve u pool).globalB.length)
                (partitionBanners dist resolve u pool).nearby.length
             else
              min (maxResults - (partitionBanners dist resolve u pool).globalB.length)
                (partitionBanners dist resolve u pool).fallback.length)
           else 0)) := by
  unfold getFilteredBottomBanners
  by_cases hg : (partitionBanners dist resolve u pool).globalB.length < maxResults
  · by_cases ha : 0 < (partitionBanners dist resolve u pool).area.length
    · simp only [hg, ha, if_true, ite_true, ite_false, List.length_take, List.length_append,
        shuffleArray_length, List.length_drop, List.length_map, sortBy_length, List.take_left,
        List.drop_left]
    · by_cases hn : 0 < (partitionBanners dist resolve u pool).nearby.length
      · simp only [hg, ha, hn, if_true, if_false, ite_true, ite_false, List.length_take,
          List.length_append, shuffleArray_length, List.length_drop, List.length_map,
          sortBy_length, List.take_left, List.drop_left]
      · simp only [hg, ha, hn, if_true, if_false, ite_true, ite_false, List.length_take,
          List.length_append, shuffleArray_length, List.length_drop, List.take_left,
          List.drop_left]
  · simp only [hg, if_true, if_false, ite_true, ite_false, List.length_take, List.length_append,
      shuffleArray_length, List.length_drop, List.take_length, List.drop_length]
    omega

end UploadJs

theorem truthyLowerEq_iff (a b : Option String) :
    truthyLowerEq a b = true ↔ presentEq a b := by
  cases a with
  | none => simp [truthyLowerEq, presentEq]
  | some x =>
    cases b with
    | none => simp [truthyLowerEq, presentEq]
    | some y =>
      simp [truthyLowerEq, presentEq, Bool.and_eq_true, Bool.not_eq_true', beq_eq_false_iff_ne,
        and_assoc]

namespace IndexJs

theorem classifyListing_of_none (dist : Coords → Coords → ℚ)
    (resolve : Listing → Option Location) (u : Location) (l : Listing)
    (hr : resolve l = none) : classifyListing dist resolve u l = .fallback := by
  unfold classifyListing
  rw [hr]

theorem classifyListing_nearby_iff (dist : Coords → Coords → ℚ)
    (resolve : Listing → Option Location) (u : Location) (l : Listing) (d : ℚ) :
    classifyListing dist resolve u l = .nearby d ↔
      ∃ loc, resolve l = some loc ∧ isListingInUserArea dist u loc = false ∧
        ∃ uc lc, u.coordinates = some uc ∧ loc.coordinates = some lc ∧ dist uc lc = d := by
  unfold classifyListing
  cases hr : resolve l with
  | none => simp
  | some loc =>
    by_cases hA : isListingInUserArea dist u loc = true
    · simp [hA]
    · rw [Bool.not_eq_true] at hA
      simp only [hA, Bool.false_eq_true, if_false, Option.some.injEq]
      cases huc : u.coordinates with
      | none => simp [huc]
      | some uc =>
        cases hlc : loc.coordinates with
        | none => simp [hlc]
        | some lc =>
          simp only [huc, hlc, LClass.nearby.injEq]
          constructor
          · intro h
            exact ⟨loc, rfl, hA, uc, lc, rfl, hlc, h⟩
          · rintro ⟨loc', hl', hA', uc', lc', huc', hlc', hd⟩
            cases hl'
            cases huc'
            rw [hlc] at hlc'
            cases hlc'
            exact hd

end IndexJs

namespace UploadJs

theorem classifyBanner_of_global (dist : Coords → Coords → ℚ)
    (resolve : Banner → Option Location) (u : Location) (b : Banner)
    (hG : isGlobalPin b.pincode = true) :
    classifyBanner dist resolve u b = .globalB := by
  unfold classifyBanner
  rw [hG]
  rfl

theorem classifyBanner_global_iff (dist : Coords → Coords → ℚ)
    (resolve : Banner → Option Location) (u : Location) (b : Banner) :
    classifyBanner dist resolve u b = .globalB ↔ isGlobalPin b.pincode = true := by
  constructor
  · intro h
    by_contra hG
    rw [Bool.not_eq_true] at hG
    unfold classifyBanner at h
    rw [hG] at h
    simp only [Bool.false_eq_true, if_false] at h
    cases hr : resolve b with
    | none =>
      rw [hr] at h
      by_cases hn : noRestriction b = true <;> simp [hn] at h
    | some loc =>
      rw [hr] at h
      by_cases hA : isBannerInUserArea dist u loc = true
      · simp [hA] at h
      · rw [Bool.not_eq_true] at hA
        simp only [hA, Bool.false_eq_true, if_false] at h
        cases huc : u.coordinates with
        | none =>
          rw [huc] at h
          by_cases hn : noRestriction b = true <;> simp [hn] at h
        | some uc =>
          rw [huc] at h
          cases hlc : loc.coordinates with
          | none =>
            rw [hlc] at h
            by_cases hn : noRestriction b = true <;> simp [hn] at h
          | some lc =>
            rw [hlc] at h
            by_cases hS : truthyLowerEq u.state loc.state = true
            · by_cases hD : dist uc lc ≤ 55 <;> simp [hS, hD] at h
            · by_cases hn : noRestriction b = true <;> simp [hS, hn] at h
  · exact classifyBanner_of_global dist resolve u b

theorem classifyBanner_of_none (dist : Coords → Coords → ℚ)
    (resolve : Banner → Option Location) (u : Location) (b : Banner)
    (hG : isGlobalPin b.pincode = false) (hr : resolve b = none) :
    classifyBanner dist resolve u b =
      (if noRestriction b then .fallback else .skip) := by
  unfold classifyBanner
  rw [hG, hr]
  simp

theorem classifyBanner_nearby_iff (dist : Coords → Coords → ℚ)
    (resolve : Banner → Option Location) (u : Location) (b : Banner) (dB : ℚ) :
    classifyBanner dist resolve u b = .nearby dB ↔
      isGlobalPin b.pincode = false ∧ ∃ loc, resolve b = some loc ∧
        isBannerInUserArea dist u loc = false ∧
        ∃ uc lc, u.coordinates = some uc ∧ loc.coordinates = some lc ∧
          truthyLowerEq u.state loc.state = true ∧ dist uc lc ≤ 55 ∧ dist uc lc = dB := by
  by_cases hG : isGlobalPin b.pincode = true
  · rw [classifyBanner_of_global dist resolve u b hG]
    simp [hG]
  · rw [Bool.not_eq_true] at hG
    unfold classifyBanner
    rw [hG]
    simp only [Bool.false_eq_true, if_false, hG, true_and]
    cases hr : resolve b with
    | none => by_cases hn : noRestriction b = true <;> simp [hn]
    | some loc =>
      by_cases hA : isBannerInUserArea dist u loc = true
      · simp [hA]
      · rw [Bool.not_eq_true] at hA
        simp only [hA, Bool.false_eq_true, if_false]
        cases huc : u.coordinates with
        | none => by_cases hn : noRestriction b = true <;> simp [hn, huc]
        | some uc =>
          cases hlc : loc.coordinates with
          | none => by_cases hn : noRestriction b = true <;> simp [hn, hlc]
          | some lc =>
            by_cases hS : truthyLowerEq u.state loc.state = true
            · by_cases hD : dist uc lc ≤ 55
              · simp only [hS, hD, if_true, ite_true, huc, hlc, BClass.nearby.injEq]
                constructor
                · intro h
                  exact ⟨loc, rfl, hA, uc, lc, rfl, hlc, hS, hD, h⟩
                · rintro ⟨loc', hl', hA', uc', lc', huc', hlc', hS', hD', hd⟩
                  cases hl'
                  cases huc'
                  rw [hlc] at hlc'
                  cases hlc'
                  exact hd
              · simp only [hS, hD, if_true, if_false, ite_true, ite_false, huc, hlc]
                constructor
                · intro h
                  cases h
                · rintro ⟨loc', hl', hA', uc', lc', huc', hlc', hS', hD', hd⟩
                  cases hl'
                  cases huc'
                  rw [hlc] at hlc'
                  cases hlc'
                  exact absurd hD' hD
            · by_cases hn : noRestriction b = true <;> simp [hn, hS, huc, hlc, hA]

end UploadJs

theorem isListingInUserArea_eq_true_iff (dist : Coords → Coords → ℚ) (u l : Location) :
    IndexJs.isListingInUserArea dist u l = true ↔ sameAreaSpec dist u l := by
  unfold IndexJs.isListingInUserArea sameAreaSpec
  by_cases h1 : truthyLowerEq u.district l.district = true
  · simp [h1, (truthyLowerEq_iff _ _).mp h1]
  · have h1' : ¬ presentEq u.district l.district :=
      fun hp => h1 ((truthyLowerEq_iff _ _).mpr hp)
    rw [Bool.not_eq_true] at h1
    by_cases h2 : truthyLowerEq u.city l.city = true
    · simp [h1, h2, (truthyLowerEq_iff _ _).mp h2, h1']
    · have h2' : ¬ presentEq u.city l.city :=
        fun hp => h2 ((truthyLowerEq_iff _ _).mpr hp)
      rw [Bool.not_eq_true] at h2
      simp only [h1, h2, Bool.false_eq_true, if_false]
      cases huc : u.coordinates with
      | none => simp [huc, h1', h2']
      | some uc =>
        cases hlc : l.coordinates with
        | none => simp [hlc, h1', h2']
        | some lc =>
          by_cases h3 : truthyLowerEq u.state l.state = true
          · have h3p := (truthyLowerEq_iff _ _).mp h3
            simp only [h3, if_true, ite_true, decide_eq_true_eq]
            constructor
            · intro hd
              exact Or.inr (Or.inr ⟨h3p, uc, lc, rfl, rfl, hd⟩)
            · rintro (hp | hp | ⟨hsp, uc', lc', huc', hlc', hd⟩)
              · exact absurd hp h1'
              · exact absurd hp h2'
              · cases huc'
                cases hlc'
                exact hd
          · have h3' : ¬ presentEq u.state l.state :=
              fun hp => h3 ((truthyLowerEq_iff _ _).mpr hp)
            rw [Bool.not_eq_true] at h3
            simp [h3, h1', h2', h3']

theorem calculateListingLocationScore_formula (dist : Coords → Coords → ℚ)
    (u loc : Location) (listing : Listing) :
    IndexJs.calculateListingLocationScore dist u (some loc) listing =
      jsRound (100 + (if truthyLowerEq u.city loc.city = true then (50 : ℚ) else 0)
        + (if truthyLowerEq u.subDistrict loc.subDistrict = true then (30 : ℚ) else 0)
        + proximityBonusSpec dist u loc + serviceBonusSpec dist u loc listing) := by
  unfold IndexJs.calculateListingLocationScore proximityBonusSpec serviceBonusSpec
  cases huc : u.coordinates with
  | none =>
    simp only [huc]
    congr 1
    ring
  | some uc =>
    cases hlc : loc.coordinates with
    | none =>
      simp only [huc, hlc]
      congr 1
      ring
    | some lc =>
      cases hsr : listing.serviceRadius with
      | none =>
        simp only [huc, hlc, hsr]
        congr 1
        split_ifs <;> norm_num
      | some radius =>
        simp only [huc, hlc, hsr, Bool.and_eq_true, Bool.not_eq_true', beq_eq_false_iff_ne,
          decide_eq_true_eq]
        congr 1
        split_ifs <;> norm_num

/-- Claim C1, counterexample: a pool of two listings, one in the requester's
area and one unresolvable, with `maxResults = 2` — the cascade returns only
the single area listing, so the output length is not
`min(maxResults, pool size)`. -/
theorem C1_counterexample :
    (IndexJs.getFilteredRandomListings Ex.dist0 Ex.resolvePuneFirst Ex.rand0 Ex.rand0
        (some Ex.uPune) [Ex.l1, Ex.l2] 2).length ≠
      min 2 ([Ex.l1, Ex.l2] : List Listing).length := by
  decide

/-- Claim C1, amended: the cascade's output length is
`min(maxResults, size of the selected candidate set)` — the whole pool when
no requester location is available, otherwise the single tier the cascade
chooses (area, else nearby, else fallback; the bottom-banner variant first
takes all global sentinels and lets the chosen tier fill only the remaining
slots).  It equals `min(maxResults, pool size)` only on the no-location
path. -/
theorem C1_amended_output_length (dist : Coords → Coords → ℚ)
    (resolve : Listing → Option Location) (resolveB : Banner → Option Location)
    (r1 r2 r3 r4 : Nat → Nat) (u : Location) (pool : List Listing)
    (poolB : List Banner) (maxResults : Nat) :
    (IndexJs.getFilteredRandomListings dist resolve r1 r2 none pool maxResults).length
        = min maxResults pool.length
    ∧ (UploadJs.getFilteredBottomBanners dist resolveB r3 r4 none poolB maxResults).length
        = min maxResults poolB.length
    ∧ (IndexJs.getFilteredRandomListings dist resolve r1 r2 (some u) pool maxResults).length
        = (if 0 < (IndexJs.partitionListings dist resolve u pool).area.length then
            min maxResults (IndexJs.partitionListings dist resolve u pool).area.length
           else if 0 < (IndexJs.partitionListings dist resolve u pool).nearby.length then
            min maxResults (IndexJs.partitionListings dist resolve u pool).nearby.length
           else min maxResults (IndexJs.partitionListings dist resolve u pool).fallback.length)
    ∧ (UploadJs.getFilteredBottomBanners dist resolveB r3 r4 (some u) poolB maxResults).length
        = min maxResults
            ((UploadJs.partitionBanners dist resolveB u poolB).globalB.length +
              (if (UploadJs.partitionBanners dist resolveB u poolB).globalB.length < maxResults then
                (if 0 < (UploadJs.partitionBanners dist resolveB u poolB).area.length then
                  min (maxResults - (UploadJs.partitionBanners dist resolveB u poolB).globalB.length)
                    (UploadJs.partitionBanners dist resolveB u poolB).area.length
                 else if 0 < (UploadJs.partitionBanners dist resolveB u poolB).nearby.length then
                  min (maxResults - (UploadJs.partitionBanners dist resolveB u poolB).globalB.length)
                    (UploadJs.partitionBanners dist resolveB u poolB).nearby.length
                 else
                  min (maxResults - (UploadJs.partitionBanners dist resolveB u poolB).globalB.length)
                    (UploadJs.partitionBanners dist resolveB u poolB).fallback.length)
               else 0)) := by
  refine ⟨?_, ?_, ?_, ?_⟩
  · exact getRandomListings_length r1 pool maxResults
  · show ((shuffleArray r3 poolB).take maxResults).length = min maxResults poolB.length
    rw [List.length_take, shuffleArray_length]
  · exact IndexJs.getFilteredRandomListings_length dist resolve r1 r2 u pool maxResults
  · exact UploadJs.getFilteredBottomBanners_length dist resolveB r3 r4 u poolB maxResults

/-- Claim C4, counterexample: a listing resolving to a different state is
nevertheless placed in the listing cascade's Nearby bucket (the listing
variant checks only that both coordinate pairs exist) and is shown. -/
theorem C4_counterexample :
    IndexJs.getFilteredRandomListings Ex.dist0 Ex.resolveKerala Ex.rand0 Ex.rand0
        (some Ex.uPune) [Ex.l2] 5 = [Ex.l2]
    ∧ truthyLowerEq Ex.uPune.state Ex.locKerala.state = false
    ∧ Ex.resolveKerala Ex.l2 = some Ex.locKerala
    ∧ (Ex.l2, (0 : ℚ)) ∈
        (IndexJs.partitionListings Ex.dist0 Ex.resolveKerala Ex.uPune [Ex.l2]).nearby := by
  refine ⟨by decide, by decide, by decide, by decide⟩

/-- Claim C4, amended: the banner selector's Nearby bucket requires
same state (case-insensitive), both coordinate pairs, and distance at most
55 km, exactly as claimed; the listing selector's Nearby bucket instead
admits every rejected candidate whose two coordinate pairs exist, with no
state or distance condition. -/
theorem C4_amended_nearby_characterization (dist : Coords → Coords → ℚ)
    (resolve : Listing → Option Location) (resolveB : Banner → Option Location)
    (u : Location) (pool : List Listing) (poolB : List Banner)
    (l : Listing) (d : ℚ) (b : Banner) (dB : ℚ) :
    ((l, d) ∈ (IndexJs.partitionListings dist resolve u pool).nearby ↔
      l ∈ pool ∧ ∃ loc, resolve l = some loc ∧
        IndexJs.isListingInUserArea dist u loc = false ∧
        ∃ uc lc, u.coordinates = some uc ∧ loc.coordinates = some lc ∧ dist uc lc = d)
    ∧ ((b, dB) ∈ (UploadJs.partitionBanners dist resolveB u poolB).nearby ↔
      b ∈ poolB ∧ isGlobalPin b.pincode = false ∧ ∃ loc, resolveB b = some loc ∧
        UploadJs.isBannerInUserArea dist u loc = false ∧
        ∃ uc lc, u.coordinates = some uc ∧ loc.coordinates = some lc ∧
          truthyLowerEq u.state loc.state = true ∧ dist uc lc ≤ 55 ∧ dist uc lc = dB) :=
  ⟨(IndexJs.mem_nearby_pair_iff dist resolve u pool l d).trans
      (and_congr_right fun _ => IndexJs.classifyListing_nearby_iff dist resolve u l d),
   (UploadJs.mem_nearby_pair_iffB dist resolveB u poolB b dB).trans
      (and_congr_right fun _ => UploadJs.classifyBanner_nearby_iff dist resolveB u b dB)⟩

/-- Claim C5: each area classifier returns true exactly when the
specification's decision list grants it — present-and-equal districts, or
present-and-equal cities, or present-and-equal states with both coordinate
pairs present and distance at most 55 km; anything else yields false. -/
theorem C5_sameArea_iff (dist : Coords → Coords → ℚ) (u l : Location) :
    (IndexJs.isListingInUserArea dist u l = true ↔ sameAreaSpec dist u l)
    ∧ (UploadJs.isBannerInUserArea dist u l = true ↔ sameAreaSpec dist u l) :=
  ⟨isListingInUserArea_eq_true_iff dist u l,
   by
    rw [show UploadJs.isBannerInUserArea dist u l = IndexJs.isListingInUserArea dist u l from rfl]
    exact isListingInUserArea_eq_true_iff dist u l⟩

/-- Claim C6: for an in-area candidate the listing scorer returns the
rounded sum 100 + 50·[city match] + 30·[sub-district match] + tiered
proximity bonus (20 / 16 / 12 / 0, when both coordinate pairs are present)
+ 10·[service radius declared and distance within it]. -/
theorem C6_score_formula (dist : Coords → Coords → ℚ) (u loc : Location)
    (listing : Listing) (_h : IndexJs.isListingInUserArea dist u loc = true) :
    IndexJs.calculateListingLocationScore dist u (some loc) listing =
      jsRound (100 + (if truthyLowerEq u.city loc.city = true then (50 : ℚ) else 0)
        + (if truthyLowerEq u.subDistrict loc.subDistrict = true then (30 : ℚ) else 0)
        + proximityBonusSpec dist u loc + serviceBonusSpec dist u loc listing) :=
  calculateListingLocationScore_formula dist u loc listing

/-- Witness for claim C6 at a concrete in-area pair of locations. -/
theorem C6_witness :
    IndexJs.isListingInUserArea Ex.dist0 Ex.uPune Ex.locPune = true
    ∧ IndexJs.calculateListingLocationScore Ex.dist0 Ex.uPune (some Ex.locPune) Ex.l1 =
      jsRound (100
        + (if truthyLowerEq Ex.uPune.city Ex.locPune.city = true then (50 : ℚ) else 0)
        + (if truthyLowerEq Ex.uPune.subDistrict Ex.locPune.subDistrict = true then (30 : ℚ) else 0)
        + proximityBonusSpec Ex.dist0 Ex.uPune Ex.locPune
        + serviceBonusSpec Ex.dist0 Ex.uPune Ex.locPune Ex.l1) :=
  ⟨by decide, C6_score_formula Ex.dist0 Ex.uPune Ex.locPune Ex.l1 (by decide)⟩

/-- Claim C8: with no requester hint, or when the requester location fails
to resolve (both modelled as `none`), each cascade returns a truncation of
some permutation of the entire eligible pool — no geographic filtering —
and is total (no error path exists in the embedding). -/
theorem C8_degraded_random_sample (dist : Coords → Coords → ℚ)
    (resolve : Listing → Option Location) (resolveB : Banner → Option Location)
    (r1 r2 r3 r4 : Nat → Nat) (pool : List Listing) (poolB : List Banner)
    (maxResults : Nat) :
    (∃ p : List Listing, p.Perm pool ∧
      IndexJs.getFilteredRandomListings dist resolve r1 r2 none pool maxResults =
        p.take maxResults)
    ∧ ∃ q : List Banner, q.Perm poolB ∧
      UploadJs.getFilteredBottomBanners dist resolveB r3 r4 none poolB maxResults =
        q.take maxResults := by
  constructor
  · rcases getRandomListings_eq_perm_take r1 pool maxResults with ⟨p, hp, he⟩
    exact ⟨p, hp, he⟩
  · exact ⟨shuffleArray r3 poolB, shuffleArray_perm r3 poolB, rfl⟩

/-- Claim C9: both haversine distance calculators vanish on identical
coordinate pairs and are symmetric in their two endpoints (over the real
numbers modelling JS floats). -/
theorem C9_distance_zero_and_symm (lat lng lat2 lng2 : ℝ) :
    IndexJs.calculateDistance lat lng lat lng = 0
    ∧ UploadJs.calculateDistance lat lng lat lng = 0
    ∧ IndexJs.calculateDistance lat lng lat2 lng2 = IndexJs.calculateDistance lat2 lng2 lat lng
    ∧ UploadJs.calculateDistance lat lng lat2 lng2 =
        UploadJs.calculateDistance lat2 lng2 lat lng := by
  refine ⟨?_, ?_, ?_, ?_⟩
  · simp [IndexJs.calculateDistance, IndexJs.deg2rad, atan2]
  · simp [UploadJs.calculateDistance, atan2]
  · simp only [IndexJs.calculateDistance, IndexJs.deg2rad]
    have h1 : (lat - lat2) * (Real.pi / 180) / 2 = -((lat2 - lat) * (Real.pi / 180) / 2) := by
      ring
    have h2 : (lng - lng2) * (Real.pi / 180) / 2 = -((lng2 - lng) * (Real.pi / 180) / 2) := by
      ring
    rw [h1, h2, Real.sin_neg, Real.sin_neg]
    ring_nf
  · simp only [UploadJs.calculateDistance]
    have h1 : (lat - lat2) * Real.pi / 180 / 2 = -((lat2 - lat) * Real.pi / 180 / 2) := by
      ring
    have h2 : (lng - lng2) * Real.pi / 180 / 2 = -((lng2 - lng) * Real.pi / 180 / 2) := by
      ring
    rw [h1, h2, Real.sin_neg, Real.sin_neg]
    ring_nf

/-- Claim C10: the three area classifiers — the listing variant and the
banner variant in `index.js`, and the bottom-banner variant in
`upload.js` — compute the same boolean on every pair of locations. -/
theorem C10_classifiers_agree (dist : Coords → Coords → ℚ) (u l : Location) :
    IndexJs.isListingInUserArea dist u l = IndexJs.isBannerInUserArea dist u l
    ∧ IndexJs.isBannerInUserArea dist u l = UploadJs.isBannerInUserArea dist u l :=
  ⟨rfl, rfl⟩

theorem IndexJs.mem_listing_output_area (dist : Coords → Coords → ℚ)
    (resolve : Listing → Option Location) (r1 r2 : Nat → Nat) (u : Location)
    (pool : List Listing) (maxResults : Nat) (x : Listing)
    (ha : 0 < (IndexJs.partitionListings dist resolve u pool).area.length)
    (h : x ∈ IndexJs.getFilteredRandomListings dist resolve r1 r2 (some u) pool maxResults) :
    x ∈ (IndexJs.partitionListings dist resolve u pool).area.map Prod.fst := by
  unfold IndexJs.getFilteredRandomListings at h
  simp only [ha, if_true, ite_true] at h
  exact mem_map_fst_getRandom_sortBy (mem_of_mem_shuffleArray (List.mem_of_mem_take h))

theorem UploadJs.mem_bottom_output_area (dist : Coords → Coords → ℚ)
    (resolve : Banner → Option Location) (r1 r2 : Nat → Nat) (u : Location)
    (pool : List Banner) (maxResults : Nat) (x : Banner)
    (ha : 0 < (UploadJs.partitionBanners dist resolve u pool).area.length)
    (h : x ∈ UploadJs.getFilteredBottomBanners dist resolve r1 r2 (some u) pool maxResults) :
    x ∈ (UploadJs.partitionBanners dist resolve u pool).globalB
    ∨ x ∈ (UploadJs.partitionBanners dist resolve u pool).area.map Prod.fst := by
  unfold UploadJs.getFilteredBottomBanners at h
  by_cases hg : (UploadJs.partitionBanners dist resolve u pool).globalB.length < maxResults
  · simp only [hg, ha, if_true, ite_true] at h
    rw [List.take_left, List.drop_left] at h
    rcases List.mem_append.mp (List.mem_of_mem_take h) with h1 | h2
    · exact Or.inl h1
    · exact Or.inr (mem_map_fst_take_sortBy (mem_of_mem_shuffleArray h2))
  · simp only [hg, ha, if_true, if_false, ite_true, ite_false] at h
    rw [List.take_length, List.drop_length] at h
    have hempty : shuffleArray r2 ([] : List Banner) = [] := rfl
    rw [hempty, List.append_nil] at h
    exact Or.inl (List.mem_of_mem_take h)

/-- Claim C2, counterexample: a pool holding a global-sentinel banner and
one area banner, with `maxResults = 1` — the area bucket holds at least
`maxResults` items, yet the output is the sentinel, which is not an
Area-bucket item. -/
theorem C2_counterexample :
    1 ≤ (UploadJs.partitionBanners Ex.dist0 Ex.resolveBanner Ex.uPune
        [Ex.gBanner1, Ex.aBanner]).area.length
    ∧ ¬ (∀ b ∈ UploadJs.getFilteredBottomBanners Ex.dist0 Ex.resolveBanner Ex.rand0 Ex.rand0
          (some Ex.uPune) [Ex.gBanner1, Ex.aBanner] 1,
        b ∈ (UploadJs.partitionBanners Ex.dist0 Ex.resolveBanner Ex.uPune
            [Ex.gBanner1, Ex.aBanner]).area.map Prod.fst) :=
  ⟨by decide, by decide⟩

/-- Claim C2, amended: when the Area bucket is non-empty (in particular
when it holds at least `maxResults` items), every output item comes from
the Area bucket — except that the bottom-banner selector additionally pins
global-sentinel banners — and no Nearby-bucket or Fallback-bucket candidate
ever appears; tiers are never merged or interleaved. -/
theorem C2_amended_tier_isolation (dist : Coords → Coords → ℚ)
    (resolve : Listing → Option Location) (resolveB : Banner → Option Location)
    (r1 r2 r3 r4 : Nat → Nat) (u : Location) (pool : List Listing)
    (poolB : List Banner) (maxResults : Nat) :
    ((0 < (IndexJs.partitionListings dist resolve u pool).area.length) →
      maxResults ≤ (IndexJs.partitionListings dist resolve u pool).area.length →
      ∀ x ∈ IndexJs.getFilteredRandomListings dist resolve r1 r2 (some u) pool maxResults,
        x ∈ (IndexJs.partitionListings dist resolve u pool).area.map Prod.fst
        ∧ x ∉ (IndexJs.partitionListings dist resolve u pool).nearby.map Prod.fst
        ∧ x ∉ (IndexJs.partitionListings dist resolve u pool).fallback)
    ∧ ((0 < (UploadJs.partitionBanners dist resolveB u poolB).area.length) →
      maxResults ≤ (UploadJs.partitionBanners dist resolveB u poolB).area.length →
      ∀ b ∈ UploadJs.getFilteredBottomBanners dist resolveB r3 r4 (some u) poolB maxResults,
        (b ∈ (UploadJs.partitionBanners dist resolveB u poolB).globalB
          ∨ b ∈ (UploadJs.partitionBanners dist resolveB u poolB).area.map Prod.fst)
        ∧ b ∉ (UploadJs.partitionBanners dist resolveB u poolB).nearby.map Prod.fst
        ∧ b ∉ (UploadJs.partitionBanners dist resolveB u poolB).fallback) := by
  constructor
  · intro ha _hmax x hx
    have hxa := IndexJs.mem_listing_output_area dist resolve r1 r2 u pool maxResults x ha hx
    rcases (IndexJs.mem_area_fst_iff dist resolve u pool x).mp hxa with ⟨hxp, s, hcs⟩
    refine ⟨hxa, ?_, ?_⟩
    · intro hn
      rcases (IndexJs.mem_nearby_fst_iff dist resolve u pool x).mp hn with ⟨_, d, hcd⟩
      rw [hcs] at hcd
      cases hcd
    · intro hf
      have hcf := ((IndexJs.mem_fallback_iff dist resolve u pool x).mp hf).2
      rw [hcs] at hcf
      cases hcf
  · intro ha _hmax b hb
    have hgb := UploadJs.mem_bottom_output_area dist resolveB r3 r4 u poolB maxResults b ha hb
    have hclass : (∃ s, UploadJs.classifyBanner dist resolveB u b = .area s)
        ∨ UploadJs.classifyBanner dist resolveB u b = .globalB := by
      rcases hgb with h | h
      · exact Or.inr ((UploadJs.mem_globalB_iff dist resolveB u poolB b).mp h).2
      · rcases (UploadJs.mem_area_fst_iffB dist resolveB u poolB b).mp h with ⟨_, s, hc⟩
        exact Or.inl ⟨s, hc⟩
    refine ⟨hgb, ?_, ?_⟩
    · intro hn
      rcases (UploadJs.mem_nearby_fst_iffB dist resolveB u poolB b).mp hn with ⟨_, d, hcd⟩
      rcases hclass with ⟨s, hc⟩ | hc <;> (rw [hc] at hcd; cases hcd)
    · intro hf
      have hcf := ((UploadJs.mem_fallback_iffB dist resolveB u poolB b).mp hf).2
      rcases hclass with ⟨s, hc⟩ | hc <;> (rw [hc] at hcf; cases hcf)

/-- Witness for claim C2 at a one-listing area pool and a one-banner area
pool with `maxResults = 1`, evaluated at the listing the cascade returns. -/
theorem C2_witness :
    Ex.l1 ∈ (IndexJs.partitionListings Ex.dist0 Ex.resolvePuneFirst Ex.uPune [Ex.l1]).area.map
        Prod.fst
    ∧ Ex.l1 ∉ (IndexJs.partitionListings Ex.dist0 Ex.resolvePuneFirst Ex.uPune
        [Ex.l1]).nearby.map Prod.fst
    ∧ Ex.l1 ∉ (IndexJs.partitionListings Ex.dist0 Ex.resolvePuneFirst Ex.uPune
        [Ex.l1]).fallback :=
  (C2_amended_tier_isolation Ex.dist0 Ex.resolvePuneFirst Ex.resolveBanner Ex.rand0 Ex.rand0
    Ex.rand0 Ex.rand0 Ex.uPune [Ex.l1] [Ex.aBanner] 1).1 (by decide) (by decide)
    Ex.l1 (by decide)

/-- Claim C3, counterexample: two global-sentinel banners with
`maxResults = 1` — the final truncation drops the second sentinel, so not
every sentinel in the pool is present in the output. -/
theorem C3_counterexample :
    isGlobalPin Ex.gBanner2.pincode = true
    ∧ Ex.gBanner2 ∈ ([Ex.gBanner1, Ex.gBanner2] : List Banner)
    ∧ Ex.gBanner2 ∉ UploadJs.getFilteredBottomBanners Ex.dist0 Ex.resolveBanner Ex.rand0 Ex.rand0
        (some Ex.uPune) [Ex.gBanner1, Ex.gBanner2] 1 :=
  ⟨by decide, by decide, by decide⟩

/-- Claim C3, amended: when the requester location resolves and the number
of global sentinels does not exceed `maxResults`, the bottom-banner output
is exactly the global bucket followed by non-sentinel items: every sentinel
of the pool is in the global bucket, everything in the global bucket is a
sentinel, and no sentinel appears after a non-sentinel. -/
theorem C3_amended_globals_first (dist : Coords → Coords → ℚ)
    (resolveB : Banner → Option Location) (r1 r2 : Nat → Nat) (u : Location)
    (pool : List Banner) (maxResults : Nat)
    (hg : (UploadJs.partitionBanners dist resolveB u pool).globalB.length ≤ maxResults) :
    ∃ rest,
      UploadJs.getFilteredBottomBanners dist resolveB r1 r2 (some u) pool maxResults =
        (UploadJs.partitionBanners dist resolveB u pool).globalB ++ rest
      ∧ (∀ b ∈ pool, isGlobalPin b.pincode = true →
          b ∈ (UploadJs.partitionBanners dist resolveB u pool).globalB)
      ∧ (∀ b ∈ (UploadJs.partitionBanners dist resolveB u pool).globalB,
          isGlobalPin b.pincode = true)
      ∧ (∀ b ∈ rest, isGlobalPin b.pincode = false) := by
  rcases UploadJs.bottomBanners_decompose dist resolveB r1 r2 u pool maxResults with ⟨T, heq, hT⟩
  refine ⟨(shuffleArray r2 T).take
      (maxResults - (UploadJs.partitionBanners dist resolveB u pool).globalB.length),
    ?_, ?_, ?_, ?_⟩
  · rw [heq, List.take_append_eq_append_take, List.take_of_length_le hg]
  · intro b hb hG
    exact (UploadJs.mem_globalB_iff dist resolveB u pool b).mpr
      ⟨hb, UploadJs.classifyBanner_of_global dist resolveB u b hG⟩
  · intro b hb
    exact (UploadJs.classifyBanner_global_iff dist resolveB u b).mp
      ((UploadJs.mem_globalB_iff dist resolveB u pool b).mp hb).2
  · intro b hb
    have hbT := mem_of_mem_shuffleArray (List.mem_of_mem_take hb)
    by_contra hGt
    rw [Bool.not_eq_false] at hGt
    have hglob := UploadJs.classifyBanner_of_global dist resolveB u b hGt
    rcases hT b hbT with h | h | h
    · rcases (UploadJs.mem_area_fst_iffB dist resolveB u pool b).mp h with ⟨_, s, hc⟩
      rw [hglob] at hc
      cases hc
    · rcases (UploadJs.mem_nearby_fst_iffB dist resolveB u pool b).mp h with ⟨_, d, hc⟩
      rw [hglob] at hc
      cases hc
    · have hc := ((UploadJs.mem_fallback_iffB dist resolveB u pool b).mp h).2
      rw [hglob] at hc
      cases hc

/-- Witness for claim C3 at a pool holding one sentinel and one area
banner, with `maxResults = 2`. -/
theorem C3_witness :
    ∃ rest,
      UploadJs.getFilteredBottomBanners Ex.dist0 Ex.resolveBanner Ex.rand0 Ex.rand0
          (some Ex.uPune) [Ex.gBanner1, Ex.aBanner] 2 =
        (UploadJs.partitionBanners Ex.dist0 Ex.resolveBanner Ex.uPune
          [Ex.gBanner1, Ex.aBanner]).globalB ++ rest
      ∧ (∀ b ∈ ([Ex.gBanner1, Ex.aBanner] : List Banner), isGlobalPin b.pincode = true →
          b ∈ (UploadJs.partitionBanners Ex.dist0 Ex.resolveBanner Ex.uPune
            [Ex.gBanner1, Ex.aBanner]).globalB)
      ∧ (∀ b ∈ (UploadJs.partitionBanners Ex.dist0 Ex.resolveBanner Ex.uPune
            [Ex.gBanner1, Ex.aBanner]).globalB, isGlobalPin b.pincode = true)
      ∧ (∀ b ∈ rest, isGlobalPin b.pincode = false) :=
  C3_amended_globals_first Ex.dist0 Ex.resolveBanner Ex.rand0 Ex.rand0 Ex.uPune
    [Ex.gBanner1, Ex.aBanner] 2 (by decide)

/-- Claim C7, counterexample: a listing that carries a pincode hint but
fails to resolve is not excluded from the listing cascade — it lands in the
fallback bucket and is shown. -/
theorem C7_counterexample :
    Ex.lRestricted.pincode = some "560001"
    ∧ Ex.resolveNone Ex.lRestricted = none
    ∧ Ex.lRestricted ∈ IndexJs.getFilteredRandomListings Ex.dist0 Ex.resolveNone Ex.rand0
        Ex.rand0 (some Ex.uPune) [Ex.lRestricted] 5 :=
  ⟨by decide, by decide, by decide⟩

/-- Claim C7, amended: in the bottom-banner selector an unresolvable
non-sentinel banner goes to the Fallback bucket exactly when it carries no
restrictive hint, and is excluded from the output entirely when it does;
the listing selector instead places every unresolvable listing in the
Fallback bucket regardless of its hints. -/
theorem C7_amended_unresolvable_handling (dist : Coords → Coords → ℚ)
    (resolve : Listing → Option Location) (resolveB : Banner → Option Location)
    (r1 r2 : Nat → Nat) (u : Location) (pool : List Listing) (poolB : List Banner)
    (maxResults : Nat) (l : Listing) (b : Banner)
    (hl : l ∈ pool) (hrl : resolve l = none)
    (hb : b ∈ poolB) (hrb : resolveB b = none) (hbg : isGlobalPin b.pincode = false) :
    l ∈ (IndexJs.partitionListings dist resolve u pool).fallback
    ∧ (UploadJs.noRestriction b = true →
        b ∈ (UploadJs.partitionBanners dist resolveB u poolB).fallback)
    ∧ (UploadJs.noRestriction b = false →
        b ∉ (UploadJs.partitionBanners dist resolveB u poolB).fallback
        ∧ b ∉ UploadJs.getFilteredBottomBanners dist resolveB r1 r2 (some u) poolB maxResults) := by
  refine ⟨?_, ?_, ?_⟩
  · exact (IndexJs.mem_fallback_iff dist resolve u pool l).mpr
      ⟨hl, IndexJs.classifyListing_of_none dist resolve u l hrl⟩
  · intro hn
    refine (UploadJs.mem_fallback_iffB dist resolveB u poolB b).mpr ⟨hb, ?_⟩
    rw [UploadJs.classifyBanner_of_none dist resolveB u b hbg hrb, hn]
    simp
  · intro hn
    have hskip : UploadJs.classifyBanner dist resolveB u b = .skip := by
      rw [UploadJs.classifyBanner_of_none dist resolveB u b hbg hrb, hn]
      simp
    constructor
    · intro hf
      have hc := ((UploadJs.mem_fallback_iffB dist resolveB u poolB b).mp hf).2
      rw [hskip] at hc
      cases hc
    · intro hout
      rcases UploadJs.mem_bottom_output dist resolveB r1 r2 u poolB maxResults b hout
        with h | h | h | h
      · have hc := ((UploadJs.mem_globalB_iff dist resolveB u poolB b).mp h).2
        rw [hskip] at hc
        cases hc
      · rcases (UploadJs.mem_area_fst_iffB dist resolveB u poolB b).mp h with ⟨_, s, hc⟩
        rw [hskip] at hc
        cases hc
      · rcases (UploadJs.mem_nearby_fst_iffB dist resolveB u poolB b).mp h with ⟨_, d, hc⟩
        rw [hskip] at hc
        cases hc
      · have hc := ((UploadJs.mem_fallback_iffB dist resolveB u poolB b).mp h).2
        rw [hskip] at hc
        cases hc

/-- Witness for claim C7 at a concrete unresolvable listing and a concrete
unresolvable restricted banner. -/
theorem C7_witness :
    Ex.lRestricted ∈ (IndexJs.partitionListings Ex.dist0 Ex.resolveNone Ex.uPune
      [Ex.lRestricted]).fallback
    ∧ Ex.rBanner ∉ (UploadJs.partitionBanners Ex.dist0 Ex.resolveBNone Ex.uPune
        [Ex.rBanner]).fallback
    ∧ Ex.rBanner ∉ UploadJs.getFilteredBottomBanners Ex.dist0 Ex.resolveBNone Ex.rand0
        Ex.rand0 (some Ex.uPune) [Ex.rBanner] 5 :=
  have h := C7_amended_unresolvable_handling Ex.dist0 Ex.resolveNone Ex.resolveBNone Ex.rand0
    Ex.rand0 Ex.uPune [Ex.lRestricted] [Ex.rBanner] 5 Ex.lRestricted Ex.rBanner
    (by decide) (by decide) (by decide) (by decide) (by decide)
  ⟨h.1, (h.2.2 (by decide)).1, (h.2.2 (by decide)).2⟩
